import Mathlib

/-!
Verification development for `nova/virt/libvirt/image.py`: disk-image
backend drivers (raw file, qcow2 file, LVM logical volume), their image
and snapshot operations, and the failure-handling / retry logic around
external volume tools.

The Python module is shallowly embedded: pure naming and parsing helpers
become Lean functions; calls to the process-execution utility
(`utils.execute`) and to `time.sleep` are modelled by an explicit
`ExecState` threading an outcome oracle, the list of issued commands and
the list of sleeps; Python exceptions become an `Err` sum type carried in
`Except`.
-/

/-- Error kinds raised by the module or its collaborators.
`configurationError` and `preconditionError` are the spec's names for the
two `RuntimeError`s the source raises (driver selection, live-snapshot
guard); `processExecutionError` is `exception.ProcessExecutionError`;
`parseError` covers the `ValueError` / `KeyError` / `IndexError` family a
malformed inspector output produces; `osError` is `OSError` from
`os.remove`. -/
inductive Err where
  | configurationError (msg : String)
  | preconditionError (msg : String)
  | processExecutionError (info : String)
  | parseError (msg : String)
  | osError (msg : String)
deriving Repr, DecidableEq

/-- Split a character list at every character satisfying `p` (the
separators are dropped, empty pieces kept), accumulating the current piece
in reverse. -/
def split_by (p : Char → Bool) : List Char → List Char → List (List Char)
  | [], acc => [acc.reverse]
  | x :: xs, acc =>
    if p x then acc.reverse :: split_by p xs []
    else split_by p xs (x :: acc)

/-- Python `s.split(c)` for a one-character separator. -/
def split_char (c : Char) (s : String) : List String :=
  (split_by (fun x => x == c) s.data []).map String.mk

/-- Python `s.split()` (no argument): whitespace-separated tokens, empty
pieces dropped. -/
def split_ws (s : String) : List String :=
  ((split_by Char.isWhitespace s.data []).map String.mk).filter (fun t => !(t == ""))

/-- Python `s.strip()`: drop leading and trailing whitespace. -/
def py_strip (s : String) : String :=
  ⟨(((s.data.dropWhile Char.isWhitespace).reverse.dropWhile Char.isWhitespace).reverse)⟩

/-- Does the string start with character `c`? -/
def head_is (c : Char) (s : String) : Bool :=
  match s.data with
  | [] => false
  | x :: _ => x == c

/-- Does the string end with character `c`? -/
def last_is (c : Char) (s : String) : Bool :=
  match s.data.getLast? with
  | none => false
  | some x => x == c

/-- Python `c in s` for a one-character needle. -/
def str_has (c : Char) (s : String) : Bool :=
  s.data.contains c

/-- Python `int(s)` restricted to the non-negative decimal literals the
inspector output produces; anything else (empty, sign, stray characters)
raises `ValueError`, i.e. yields `none`. -/
def py_int (s : String) : Option Nat :=
  if s.data ≠ [] ∧ s.data.all Char.isDigit then
    some (s.data.foldl (fun n c => n * 10 + (c.toNat - Char.toNat '0')) 0)
  else none

/-- `posixpath.join` for two components: a second absolute component
replaces the first; otherwise a `/` separator is inserted unless already
present. -/
def path_join (a b : String) : String :=
  if head_is '/' b then b
  else if a == "" || last_is '/' a then a ++ b
  else a ++ "/" ++ b

/-- `os.path.basename`: the part after the last `/` (the whole string when
there is no `/`). -/
def basename (p : String) : String :=
  ((split_char '/' p).getLast?).getD p

/-- Python truthiness of an optional string argument (`if image_name:`):
`None` and the empty string are falsy. -/
def truthy : Option String → Bool
  | none => false
  | some s => !(s == "")

/-- One `<source>` element of a domain's `<disk>` device description, with
its optional `dev` and `file` attributes (`element.get(...)`). -/
structure DiskSource where
  dev : Option String
  file : Option String
deriving Repr, DecidableEq

/-- The structured device description of a domain: the list of
`devices/disk/source` elements of its XML description. -/
structure DomainDesc where
  disks : List DiskSource
deriving Repr, DecidableEq

/-- `LvmImageDriver._list_disks`: the `dev` attribute of every disk source
element, in document order. -/
def lvm_list_disks (d : DomainDesc) : List (Option String) :=
  d.disks.map (fun e => e.dev)

/-- `_FileImageDriver._list_disks`: the `file` attribute of every disk
source element, in document order. -/
def file_list_disks (d : DomainDesc) : List (Option String) :=
  d.disks.map (fun e => e.file)

/-- `RawImage`: a flat file image.  The path field is optional because
`RawImageDriver.list_images` constructs `RawImage(path)` directly from
`element.get('file')`, which may be `None`. -/
structure RawImage where
  image_path : Option String
deriving Repr, DecidableEq

def RawImage.path (i : RawImage) : Option String := i.image_path

/-- `QcowImage`: a qcow2 file image; same construction as `RawImage`. -/
structure QcowImage where
  image_path : Option String
deriving Repr, DecidableEq

def QcowImage.path (i : QcowImage) : Option String := i.image_path

/-- `LvmImage`: a logical volume `lv` inside volume group `vg`. -/
structure LvmImage where
  vg : String
  lv : String
deriving Repr, DecidableEq

/-- `LvmImage.path`: `os.path.join('/dev', vg, lv)` computed in
`__init__`. -/
def LvmImage.path (i : LvmImage) : String :=
  path_join (path_join "/dev" i.vg) i.lv

/-- The metadata dict returned by each driver's `image_info`. -/
structure ImageInfo where
  device_type : String
  source_type : String
  driver_type : String
  disk : String
deriving Repr, DecidableEq

/-- `_FileImageDriver._image_path`:
`os.path.join(FLAGS.instances_path, instance_name, image_name)` with the
suffix appended when truthy. -/
def file_image_path (instances_path instance_name image_name : String)
    (suffix : Option String) : String :=
  let image_path := path_join (path_join instances_path instance_name) image_name
  if truthy suffix then image_path ++ suffix.getD "" else image_path

/-- `LvmImageDriver._lv_name`: `instance_name`, then `-image_name` when
truthy, then `-suffix` when truthy. -/
def lv_name (instance_name : String) (image_name suffix : Option String) : String :=
  let n := instance_name
  let n := if truthy image_name then n ++ "-" ++ image_name.getD "" else n
  if truthy suffix then n ++ "-" ++ suffix.getD "" else n

def RawImageDriver.create_image (instances_path instance_name image_name : String)
    (suffix : Option String) : RawImage :=
  ⟨some (file_image_path instances_path instance_name image_name suffix)⟩

/-- `RawImageDriver.list_images`: wraps every disk source's `file`
attribute, with no filtering of missing sources. -/
def RawImageDriver.list_images (d : DomainDesc) : List RawImage :=
  (file_list_disks d).map (fun p => ⟨p⟩)

def RawImageDriver.image_info (instances_path instance_name image_name : String)
    (suffix : Option String) : ImageInfo :=
  { device_type := "file", source_type := "file", driver_type := "raw",
    disk := file_image_path instances_path instance_name image_name suffix }

def QcowImageDriver.create_image (instances_path instance_name image_name : String)
    (suffix : Option String) : QcowImage :=
  ⟨some (file_image_path instances_path instance_name image_name suffix)⟩

/-- `QcowImageDriver.list_images`: wraps every disk source's `file`
attribute, with no filtering of missing sources. -/
def QcowImageDriver.list_images (d : DomainDesc) : List QcowImage :=
  (file_list_disks d).map (fun p => ⟨p⟩)

def QcowImageDriver.image_info (instances_path instance_name image_name : String)
    (suffix : Option String) : ImageInfo :=
  { device_type := "file", source_type := "file", driver_type := "qcow2",
    disk := file_image_path instances_path instance_name image_name suffix }

/-- `LvmImageDriver.create_image`: an `LvmImage` named by `_lv_name` under
the configured volume group (`FLAGS.lvm_volume_group`, a parameter
here). -/
def LvmImageDriver.create_image (volume_group instance_name : String)
    (image_name suffix : Option String) : LvmImage :=
  ⟨volume_group, lv_name instance_name image_name suffix⟩

/-- `LvmImageDriver.list_images`: for every disk source whose `dev`
attribute is present, `create_image(os.path.basename(lv_path))` — the
basename becomes the `instance_name` argument and the image is rebuilt
under the configured volume group. `None` entries are skipped. -/
def LvmImageDriver.list_images (volume_group : String) (d : DomainDesc) : List LvmImage :=
  (lvm_list_disks d).filterMap
    (fun lv_path => lv_path.map
      (fun p => LvmImageDriver.create_image volume_group (basename p) none none))

def LvmImageDriver.image_info (volume_group instance_name : String)
    (image_name suffix : Option String) : ImageInfo :=
  { device_type := "block", source_type := "dev", driver_type := "raw",
    disk := path_join (path_join "/dev" volume_group)
      (lv_name instance_name image_name suffix) }

/-- The three image-driver variants `select_driver` can return. -/
inductive DriverKind where
  | rawDriver
  | qcowDriver
  | lvmDriver
deriving Repr, DecidableEq

/-- `select_driver`, as a pure function of the two configuration flags
`FLAGS.local_images_type` and `FLAGS.use_cow_images`.  The unrecognized
case raises with the source's message, naming the invalid value. -/
def select_driver (local_images_type : String) (use_cow_images : Bool) :
    Except Err DriverKind :=
  if local_images_type = "raw" then .ok .rawDriver
  else if local_images_type = "qcow" then .ok .qcowDriver
  else if local_images_type = "lvm" then .ok .lvmDriver
  else if local_images_type = "legacy" then
    if use_cow_images then .ok .qcowDriver else .ok .rawDriver
  else .error (.configurationError ("No driver found for: " ++ local_images_type))

/-- The environment of the process-execution utility: `oracle n` is the
outcome of the `n`-th `utils.execute` call (captured stdout/stderr, or a
raised error), `trace` the argv lists issued so far, `sleeps` the
arguments of the `time.sleep` calls made so far. -/
structure ExecState where
  oracle : Nat → Except Err (String × String)
  calls : Nat
  trace : List (List String)
  sleeps : List Nat

def ExecState.init (oracle : Nat → Except Err (String × String)) : ExecState :=
  { oracle := oracle, calls := 0, trace := [], sleeps := [] }

/-- `utils.execute(*cmd)`: issue the command, consume one oracle
outcome. -/
def execute (cmd : List String) (s : ExecState) :
    Except Err (String × String) × ExecState :=
  (s.oracle s.calls,
   { s with calls := s.calls + 1, trace := s.trace ++ [cmd] })

/-- `time.sleep(n)`: recorded, not waited. -/
def sleep (n : Nat) (s : ExecState) : ExecState :=
  { s with sleeps := s.sleeps ++ [n] }

/-- Body of `LvmImage.__try_execute`: retry loop around `utils.execute`.
Only `ProcessExecutionError` is caught; `tries` is incremented per
failure, the loop re-raises once `tries >= 3` and otherwise sleeps
`tries ** 2` seconds before the next attempt.  `fuel` only makes the
recursion structural; the `tries + 1 >= 3` re-raise fires first whenever
`fuel >= 3 - tries`, so the fuel-exhausted arm (which re-raises the same
error) is unreachable from `try_execute`'s entry point. -/
def try_execute_go (cmd : List String) : Nat → Nat → ExecState →
    Except Err Unit × ExecState
  | fuel, tries, s =>
    match execute cmd s with
    | (.ok _, s1) => (.ok (), s1)
    | (.error e, s1) =>
      match e with
      | .processExecutionError info =>
        if tries + 1 ≥ 3 then (.error (.processExecutionError info), s1)
        else
          match fuel with
          | 0 => (.error (.processExecutionError info), s1)
          | f + 1 => try_execute_go cmd f (tries + 1) (sleep ((tries + 1) ^ 2) s1)
      | e1 => (.error e1, s1)

/-- `LvmImage.__try_execute`, entered with `tries = 0`. -/
def try_execute (cmd : List String) (tries : Nat) (s : ExecState) :
    Except Err Unit × ExecState :=
  try_execute_go cmd 3 tries s

/-- `_FileImage.delete`'s filesystem: the set of present files, plus the
paths whose removal fails for a reason other than absence (permissions,
busy, ...). -/
structure Fs where
  files : List String
  remove_fails : List String
deriving Repr, DecidableEq

/-- `os.remove`: raises `OSError` when the path cannot be removed or does
not exist; otherwise removes it. -/
def os_remove (fs : Fs) (p : String) : Except Err Unit × Fs :=
  if fs.remove_fails.contains p then
    (.error (.osError ("removal failed: " ++ p)), fs)
  else if fs.files.contains p then
    (.ok (), { fs with files := fs.files.erase p })
  else
    (.error (.osError ("No such file or directory: " ++ p)), fs)

/-- `_FileImage.delete`: `try: os.remove(path) except OSError as e: log`.
Returns the outcome, the filesystem, and the error-log lines emitted. -/
def file_image_delete (fs : Fs) (p : String) :
    Except Err Unit × (Fs × List String) :=
  match os_remove fs p with
  | (.ok _, fs1) => (.ok (), (fs1, []))
  | (.error e, fs1) =>
    match e with
    | .osError msg => (.ok (), (fs1, ["Error during image delete: " ++ msg]))
    | e1 => (.error e1, (fs1, []))

/-- The line loop of `LvmImage._image_size`: skip empty lines, unpack
`k, v = line.split(':')` (raising when the split does not yield exactly
two parts), strip the value, store with dict overwrite semantics (most
recent binding first). -/
def parse_info_lines (lines : List String) : Except Err (List (String × String)) :=
  lines.foldlM
    (fun data line =>
      if line = "" then .ok data
      else
        match split_char ':' line with
        | [k, v] => .ok ((k, py_strip v) :: data)
        | _ => .error (.parseError ("cannot unpack line: " ++ line)))
    []

/-- The parsing half of `LvmImage._image_size`, applied to the inspector
tool's stdout: build the key/value dict, look up `virtual size`, take the
text after the first `(`, take its first whitespace-separated token, and
convert it with `int`.  Every unexpected shape raises. -/
def image_size_parse (stdout : String) : Except Err Nat := do
  let data ← parse_info_lines (split_char '\n' stdout)
  match data.lookup "virtual size" with
  | none => .error (.parseError "KeyError: virtual size")
  | some v =>
    match (split_char '(' v).get? 1 with
    | none => .error (.parseError ("IndexError: " ++ v))
    | some after =>
      match (split_ws after).head? with
      | none => .error (.parseError ("IndexError: " ++ after))
      | some tok =>
        match py_int tok with
        | none => .error (.parseError ("invalid literal for int: " ++ tok))
        | some n => .ok n

/-- `LvmImage._image_size`: run `qemu-img info` on the image and parse its
stdout. -/
def lvm_image_size (image_path : String) (s : ExecState) :
    Except Err Nat × ExecState :=
  match execute ["qemu-img", "info", image_path] s with
  | (.error e, s1) => (.error e, s1)
  | (.ok (out, _), s1) => (image_size_parse out, s1)

/-- `LvmImage.create_from_raw`: probe the base image's virtual size,
allocate the volume with the retry-wrapped `lvcreate -L <size>b -n lv vg`,
then convert the base into the volume. -/
def lvm_create_from_raw (vg lv base : String) (s : ExecState) :
    Except Err Unit × ExecState :=
  match lvm_image_size base s with
  | (.error e, s1) => (.error e, s1)
  | (.ok img_size, s1) =>
    match try_execute ["lvcreate", "-L", toString img_size ++ "b", "-n", lv, vg] 0 s1 with
    | (.error e, s2) => (.error e, s2)
    | (.ok _, s2) =>
      match execute ["qemu-img", "convert", base, "-O", "raw",
                     path_join (path_join "/dev" vg) lv] s2 with
      | (.error e, s3) => (.error e, s3)
      | (.ok _, s3) => (.ok (), s3)

/-- `LvmImage.__volume_not_present`: probe with `lvdisplay`; any raised
error at all means "not present". -/
def volume_not_present (volume : String) (s : ExecState) : Bool × ExecState :=
  match execute ["lvdisplay", volume] s with
  | (.ok _, s1) => (false, s1)
  | (.error _, s1) => (true, s1)

/-- `LvmImage.__delete_image`: retry-wrapped `lvremove -f`. -/
def lvm_delete_image (volume : String) (s : ExecState) :
    Except Err Unit × ExecState :=
  try_execute ["lvremove", "-f", volume] 0 s

/-- `LvmImage.delete`: early `return True` when the presence probe fails;
otherwise read the volume's attribute flags, remove the device-mapper
mapping when the stripped flags contain `o` or `O`, then force-remove the
volume (falling off the end returns `None`, hence the `Option Bool`
result). -/
def lvm_delete (volume : String) (s : ExecState) :
    Except Err (Option Bool) × ExecState :=
  match volume_not_present volume s with
  | (true, s1) => (.ok (some true), s1)
  | (false, s1) =>
    match execute ["lvdisplay", "--noheading", "-C", "-o", "Attr", volume] s1 with
    | (.error e, s2) => (.error e, s2)
    | (.ok (out, _), s2) =>
      let dm : Except Err Unit × ExecState :=
        if out != "" && (str_has 'o' (py_strip out) || str_has 'O' (py_strip out)) then
          match execute ["dmsetup", "remove", "-c", volume] s2 with
          | (.ok _, s3) => (.ok (), s3)
          | (.error e, s3) => (.error e, s3)
        else (.ok (), s2)
      match dm with
      | (.error e, s3) => (.error e, s3)
      | (.ok _, s3) =>
        match lvm_delete_image volume s3 with
        | (.error e, s4) => (.error e, s4)
        | (.ok _, s4) => (.ok none, s4)

/-- `LvmSnapshot.create`: refuse with the source's `RuntimeError` message
when the domain is active and `force_live_snapshot` was not set; otherwise
a single `lvcreate -L<size>b -s -n name source` attempt, failure
propagated. -/
def lvm_snapshot_create (domain_active force_live : Bool)
    (snapshot_name source_path : String) (snapshot_size : Nat) (s : ExecState) :
    Except Err Unit × ExecState :=
  if !force_live && domain_active then
    (.error (.preconditionError "VM must be suspended before doing LVM snapshot"), s)
  else
    match execute ["lvcreate", "-L" ++ toString snapshot_size ++ "b", "-s", "-n",
                   snapshot_name, source_path] s with
    | (.ok _, s1) => (.ok (), s1)
    | (.error e, s1) => (.error e, s1)

/-- `LvmSnapshot.delete`: single `lvremove -f` on the snapshot path,
failure propagated. -/
def lvm_snapshot_delete (snapshot_path : String) (s : ExecState) :
    Except Err Unit × ExecState :=
  match execute ["lvremove", "-f", snapshot_path] s with
  | (.ok _, s1) => (.ok (), s1)
  | (.error e, s1) => (.error e, s1)

/-- The Python `with snapshot:` statement over `Snapshot.__enter__` /
`__exit__`: `create()` on entry (a failure there skips `__exit__`),
`delete()` on exit on both the normal and the raising path; `__exit__`
returns `None`, so a body exception still propagates after `delete()`
(and an exception inside `delete()` replaces it). -/
def with_snapshot {σ α : Type} (create delete : σ → Except Err Unit × σ)
    (body : σ → Except Err α × σ) (s : σ) : Except Err α × σ :=
  match create s with
  | (.error e, s1) => (.error e, s1)
  | (.ok _, s1) =>
    match body s1 with
    | (.ok a, s2) =>
      match delete s2 with
      | (.ok _, s3) => (.ok a, s3)
      | (.error e, s3) => (.error e, s3)
    | (.error e, s2) =>
      match delete s2 with
      | (.ok _, s3) => (.error e, s3)
      | (.error e2, s3) => (.error e2, s3)

/-- Instrumented `create` for the scoped-resource theorems: counts
invocations in the first component. -/
def count_create (s : Nat × Nat) : Except Err Unit × (Nat × Nat) :=
  (.ok (), (s.1 + 1, s.2))

/-- Instrumented `delete`: counts invocations in the second component. -/
def count_delete (s : Nat × Nat) : Except Err Unit × (Nat × Nat) :=
  (.ok (), (s.1, s.2 + 1))

/-- The inspector output on the spec's example image: the `virtual size`
line carries `(104857600 bytes)`. -/
def qemu_info_good : String :=
  "image: /tmp/base.img\nfile format: raw\nvirtual size: 100M (104857600 bytes)\ndisk size: 96M\n"

/-- Paths of the images `LvmImageDriver.list_images` returns: one per
present `dev` source, in order, each rebuilt as
`/dev/<volume_group>/<basename of the source>`. -/
theorem lvm_list_images_paths (vg : String) (disks : List DiskSource) :
    (LvmImageDriver.list_images vg ⟨disks⟩).map LvmImage.path
      = (disks.filterMap (fun e => e.dev)).map
          (fun p => path_join (path_join "/dev" vg) (basename p)) := by
  induction disks with
  | nil => rfl
  | cons d rest ih =>
    cases h : d.dev with
    | none =>
      simpa [LvmImageDriver.list_images, lvm_list_disks, List.filterMap_cons, h,
             LvmImageDriver.list_images, lvm_list_disks] using ih
    | some p =>
      simp only [LvmImageDriver.list_images, lvm_list_disks, List.map_cons,
        List.filterMap_cons, h, Option.map_some'] at ih ⊢
      simp only [List.map_cons, ih]
      rfl

/-- C1 (counterexample): on the spec's example description — one disk
source with no attributes, one with only `dev="/dev/vg0/i1"` —
`RawImageDriver.list_images` does not filter missing sources: it returns
two Images, both wrapping a missing path, not exactly one Image wrapping
`/dev/vg0/i1`. -/
theorem C1_list_images_counterexample :
    RawImageDriver.list_images ⟨[⟨none, none⟩, ⟨some "/dev/vg0/i1", none⟩]⟩
      = [⟨none⟩, ⟨none⟩]
  ∧ (RawImageDriver.list_images ⟨[⟨none, none⟩, ⟨some "/dev/vg0/i1", none⟩]⟩).length
      = 2 := by
  exact ⟨rfl, rfl⟩

/-- C1 (amended): only `LvmImageDriver.list_images` filters out entries
with a missing source; it returns, per present `dev` source and in
description order without deduplication, an Image rebuilt under the
configured volume group as `/dev/<vg>/<basename of the source>` — equal to
the source itself when the device lives under that group, as in the spec's
example with volume group `vg0`.  `RawImageDriver` and `QcowImageDriver`
wrap every entry's `file` attribute, missing ones included, with no
filtering. -/
theorem C1_list_images_amended :
    (∀ vg disks, (LvmImageDriver.list_images vg ⟨disks⟩).map LvmImage.path
        = (disks.filterMap (fun e => e.dev)).map
            (fun p => path_join (path_join "/dev" vg) (basename p)))
  ∧ (∀ d, RawImageDriver.list_images d = d.disks.map (fun e => ⟨e.file⟩))
  ∧ (∀ d, QcowImageDriver.list_images d = d.disks.map (fun e => ⟨e.file⟩))
  ∧ (LvmImageDriver.list_images "vg0"
        ⟨[⟨none, none⟩, ⟨some "/dev/vg0/i1", none⟩]⟩).map LvmImage.path
      = ["/dev/vg0/i1"] := by
  refine ⟨lvm_list_images_paths, ?_, ?_, by decide⟩
  · intro d
    simp [RawImageDriver.list_images, file_list_disks, List.map_map, Function.comp]
  · intro d
    simp [QcowImageDriver.list_images, file_list_disks, List.map_map, Function.comp]

/-- C2: `select_driver` is a pure function of the two configuration
flags: `raw`, `qcow`, `lvm` map to the three driver variants, `legacy`
defers to the copy-on-write flag, and every other value fails with a
configuration error naming the invalid value. -/
theorem C2_select_driver_policy :
    (∀ b, select_driver "raw" b = .ok .rawDriver)
  ∧ (∀ b, select_driver "qcow" b = .ok .qcowDriver)
  ∧ (∀ b, select_driver "lvm" b = .ok .lvmDriver)
  ∧ select_driver "legacy" true = .ok .qcowDriver
  ∧ select_driver "legacy" false = .ok .rawDriver
  ∧ (∀ v b, v ≠ "raw" → v ≠ "qcow" → v ≠ "lvm" → v ≠ "legacy" →
      select_driver v b
        = .error (.configurationError ("No driver found for: " ++ v))) := by
  refine ⟨fun b => rfl, fun b => rfl, fun b => rfl, rfl, rfl, ?_⟩
  intro v b h1 h2 h3 h4
  simp [select_driver, h1, h2, h3, h4]

/-- C2 witness: a fifth configuration value, evaluated concretely. -/
theorem C2_select_driver_policy_witness :
    select_driver "ceph" true
      = .error (.configurationError ("No driver found for: " ++ "ceph")) :=
  C2_select_driver_policy.2.2.2.2.2 "ceph" true (by decide) (by decide)
    (by decide) (by decide)

/-- C5: for all three driver variants and all arguments, the `disk` entry
of `image_info` equals the `path()` of the Image `create_image` returns;
concretely the file-backed path is
`<instances_root>/<instance>/<image_name><suffix>` and the LVM path is
`/dev/<volume_group>/<instance>-<image_name>-<suffix>`. -/
theorem C5_image_info_disk_matches_path :
    (∀ ip inst iname sfx, (RawImageDriver.create_image ip inst iname sfx).path
        = some (RawImageDriver.image_info ip inst iname sfx).disk)
  ∧ (∀ ip inst iname sfx, (QcowImageDriver.create_image ip inst iname sfx).path
        = some (QcowImageDriver.image_info ip inst iname sfx).disk)
  ∧ (∀ vg inst iname sfx, (LvmImageDriver.create_image vg inst iname sfx).path
        = (LvmImageDriver.image_info vg inst iname sfx).disk)
  ∧ (RawImageDriver.image_info "/var/instances" "inst1" "disk" (some ".local")).disk
      = "/var/instances/inst1/disk.local"
  ∧ (QcowImageDriver.image_info "/var/instances" "inst1" "disk" none).disk
      = "/var/instances/inst1/disk"
  ∧ (LvmImageDriver.image_info "vg0" "inst1" (some "disk") (some "sfx")).disk
      = "/dev/vg0/inst1-disk-sfx" := by
  exact ⟨fun ip inst iname sfx => rfl, fun ip inst iname sfx => rfl,
    fun vg inst iname sfx => rfl, by decide, by decide, by decide⟩

/-- C7: under the scoped-resource (`with`) protocol, `create` runs on
entry and `delete` runs exactly once on exit, on the normal path and when
the body raises, and on the raising path the body's exception still
propagates after `delete`; instantiated both on a counting state and on an
LVM snapshot whose body raises, where the `lvremove` of `delete` appears
in the trace and the body's error is the result. -/
theorem C7_scoped_snapshot_pairing :
    (∀ (r : Except Err Nat),
      with_snapshot count_create count_delete (fun s => (r, s)) (0, 0)
        = (r, (1, 1)))
  ∧ (∀ e : Err,
      with_snapshot
        (fun s => lvm_snapshot_create false false "snap" "/dev/vg0/lv" 5 s)
        (fun s => lvm_snapshot_delete "/dev/vg0/snap" s)
        (fun s => ((.error e : Except Err Unit), s))
        (ExecState.init (fun _ => .ok ("", "")))
      = (.error e,
         { oracle := fun _ => .ok ("", ""), calls := 2,
           trace := [["lvcreate", "-L5b", "-s", "-n", "snap", "/dev/vg0/lv"],
                     ["lvremove", "-f", "/dev/vg0/snap"]],
           sleeps := [] })) := by
  constructor
  · intro r
    cases r <;> rfl
  · intro e
    rfl

/-- C8: file-backed `delete()` never raises on a filesystem-removal
failure — it returns normally for every filesystem state, removing the
file when it can and logging-and-swallowing the `OSError` when the file is
missing or unremovable. -/
theorem C8_file_delete_never_raises :
    (∀ fs p, (file_image_delete fs p).1 = .ok ())
  ∧ (∀ p, file_image_delete ⟨[p], []⟩ p = (.ok (), (⟨[], []⟩, [])))
  ∧ (∀ p, file_image_delete ⟨[], []⟩ p
      = (.ok (), (⟨[], []⟩,
          ["Error during image delete: " ++ ("No such file or directory: " ++ p)])))
  ∧ (∀ p, file_image_delete ⟨[p], [p]⟩ p
      = (.ok (), (⟨[p], [p]⟩,
          ["Error during image delete: " ++ ("removal failed: " ++ p)]))) := by
  refine ⟨?_, ?_, ?_, ?_⟩
  · intro fs p
    by_cases h1 : p ∈ fs.remove_fails
    · simp [file_image_delete, os_remove, h1]
    · by_cases h2 : p ∈ fs.files
      · simp [file_image_delete, os_remove, h1, h2]
      · simp [file_image_delete, os_remove, h1, h2]
  · intro p
    simp [file_image_delete, os_remove]
  · intro p
    simp [file_image_delete, os_remove]
  · intro p
    simp [file_image_delete, os_remove]

/-- C10: `LvmImageDriver.list_images` does not wrap the domain's device
path itself: each returned Image is rebuilt under the configured volume
group from the basename of the source, so with volume group
`nova-volumes` the device `/dev/vg0/i1` comes back as
`/dev/nova-volumes/i1`, different from the domain's actual path. -/
theorem C10_lvm_list_images_rebuilds_under_configured_vg :
    (∀ vg p, (LvmImageDriver.list_images vg ⟨[⟨some p, none⟩]⟩).map LvmImage.path
        = [path_join (path_join "/dev" vg) (basename p)])
  ∧ (LvmImageDriver.list_images "nova-volumes"
        ⟨[⟨some "/dev/vg0/i1", none⟩]⟩).map LvmImage.path
      = ["/dev/nova-volumes/i1"]
  ∧ (((LvmImageDriver.list_images "nova-volumes"
        ⟨[⟨some "/dev/vg0/i1", none⟩]⟩).map LvmImage.path) == ["/dev/vg0/i1"])
      = false := by
  refine ⟨?_, by decide, by decide⟩
  intro vg p
  simpa using lvm_list_images_paths vg [⟨some p, none⟩]

/-- C3: `LvmSnapshot.create` raises the "must be suspended" precondition
error, issuing no command at all, whenever the owning domain is active and
`force_live_snapshot` was not set; in every other case it issues exactly
one copy-on-write `lvcreate` sized to the size captured at construction,
with no sleeps (single attempt) and the attempt's failure propagated. -/
theorem C3_lvm_snapshot_create_guard
    (active force_live : Bool) (name src : String) (size : Nat) (s : ExecState) :
    (active = true → force_live = false →
      lvm_snapshot_create active force_live name src size s
        = (.error (.preconditionError "VM must be suspended before doing LVM snapshot"), s))
  ∧ (force_live = true ∨ active = false →
      (lvm_snapshot_create active force_live name src size s).2.trace
          = s.trace ++ [["lvcreate", "-L" ++ toString size ++ "b", "-s", "-n", name, src]]
      ∧ (lvm_snapshot_create active force_live name src size s).2.sleeps = s.sleeps
      ∧ (lvm_snapshot_create active force_live name src size s).2.calls = s.calls + 1
      ∧ (∀ e, s.oracle s.calls = .error e →
          (lvm_snapshot_create active force_live name src size s).1 = .error e)
      ∧ (∀ r, s.oracle s.calls = .ok r →
          (lvm_snapshot_create active force_live name src size s).1 = .ok ())) := by
  constructor
  · intro ha hf
    subst ha; subst hf
    rfl
  · intro h
    have hguard : (!force_live && active) = false := by
      rcases h with h | h <;> subst h <;> simp
    cases hor : s.oracle s.calls with
    | ok r =>
      refine ⟨?_, ?_, ?_, ?_, ?_⟩ <;>
        simp [lvm_snapshot_create, hguard, execute, hor]
    | error e =>
      refine ⟨?_, ?_, ?_, ?_, ?_⟩ <;>
        simp [lvm_snapshot_create, hguard, execute, hor]

/-- C3 witness: active domain without `force_live` refuses with no
command issued; with `force_live` set the `lvcreate` is issued. -/
theorem C3_lvm_snapshot_create_guard_witness :
    lvm_snapshot_create true false "snap" "/dev/vg0/lv" 100
        (ExecState.init (fun _ => .ok ("", "")))
      = (.error (.preconditionError "VM must be suspended before doing LVM snapshot"),
         ExecState.init (fun _ => .ok ("", "")))
  ∧ (lvm_snapshot_create true true "snap" "/dev/vg0/lv" 100
        (ExecState.init (fun _ => .ok ("", "")))).2.trace
      = [] ++ [["lvcreate", "-L" ++ toString 100 ++ "b", "-s", "-n", "snap", "/dev/vg0/lv"]] := by
  constructor
  · exact (C3_lvm_snapshot_create_guard true false "snap" "/dev/vg0/lv" 100
      (ExecState.init (fun _ => .ok ("", "")))).1 rfl rfl
  · exact ((C3_lvm_snapshot_create_guard true true "snap" "/dev/vg0/lv" 100
      (ExecState.init (fun _ => .ok ("", "")))).2 (Or.inl rfl)).1

/-- C4: the retry helper wrapping LVM volume allocation makes up to 3
attempts on process-execution failures, sleeping attempt-squared seconds
between attempts: a first-attempt success issues one command and no
sleep; after two failures the third attempt's success yields success with
sleeps exactly `[1, 4]` (total wait 1+4 seconds); and when all three
attempts fail the third error is the one re-raised, again after sleeps
`[1, 4]`. -/
theorem C4_try_execute_retry (cmd : List String) (e1 e2 e3 : String)
    (r : String × String) :
    (try_execute cmd 0 (ExecState.init (fun _ => .ok r))
      = (.ok (),
         { oracle := fun _ => .ok r, calls := 1, trace := [cmd], sleeps := [] }))
  ∧ (try_execute cmd 0 (ExecState.init (fun n =>
        if n = 0 then .error (.processExecutionError e1)
        else if n = 1 then .error (.processExecutionError e2)
        else .ok r))
      = (.ok (),
         { oracle := fun n =>
             if n = 0 then .error (.processExecutionError e1)
             else if n = 1 then .error (.processExecutionError e2)
             else .ok r,
           calls := 3, trace := [cmd, cmd, cmd], sleeps := [1, 4] }))
  ∧ (try_execute cmd 0 (ExecState.init (fun n =>
        if n = 0 then .error (.processExecutionError e1)
        else if n = 1 then .error (.processExecutionError e2)
        else .error (.processExecutionError e3)))
      = (.error (.processExecutionError e3),
         { oracle := fun n =>
             if n = 0 then .error (.processExecutionError e1)
             else if n = 1 then .error (.processExecutionError e2)
             else .error (.processExecutionError e3),
           calls := 3, trace := [cmd, cmd, cmd], sleeps := [1, 4] })) := by
  exact ⟨rfl, rfl, rfl⟩

/-- C6: the size probe parses the inspector's `virtual size (<N> bytes)`
field exactly — on the spec's example output the parsed size is
104857600 and the `lvcreate` issued by `create_from_raw` is sized
`-L 104857600b` — and on inspector output of an unexpected shape the
parse fails loudly and `create_from_raw` propagates the error without
issuing any `lvcreate`. -/
theorem C6_size_probe_exact_and_loud :
    image_size_parse qemu_info_good = .ok 104857600
  ∧ (lvm_create_from_raw "vg" "lv" "/tmp/base.img"
        (ExecState.init (fun _ => .ok (qemu_info_good, "")))).2.trace.get? 1
      = some ["lvcreate", "-L", "104857600b", "-n", "lv", "vg"]
  ∧ image_size_parse "Could not open image"
      = .error (.parseError "cannot unpack line: Could not open image")
  ∧ image_size_parse "qemu-img: error"
      = .error (.parseError "KeyError: virtual size")
  ∧ (lvm_create_from_raw "vg" "lv" "/tmp/base.img"
        (ExecState.init (fun _ => .ok ("qemu-img: error", "")))).1
      = .error (.parseError "KeyError: virtual size")
  ∧ (lvm_create_from_raw "vg" "lv" "/tmp/base.img"
        (ExecState.init (fun _ => .ok ("qemu-img: error", "")))).2.trace
      = [["qemu-img", "info", "/tmp/base.img"]] := by
  exact ⟨rfl, rfl, rfl, rfl, rfl, rfl⟩

/-- C9: `LvmImage.delete` returns success immediately after the presence
probe fails, whatever the error; when the volume is present and its
stripped attribute flags contain `o`, the `dmsetup remove` precedes the
`lvremove` in the issued commands; without such flags no `dmsetup` is
issued; and when the force-removal itself keeps failing, the retry
helper's third error propagates after sleeps `[1, 4]`. -/
theorem C9_lvm_delete_behavior (volume : String) (e : Err) :
    (lvm_delete volume (ExecState.init (fun _ => .error e))
      = (.ok (some true),
         { oracle := fun _ => .error e, calls := 1,
           trace := [["lvdisplay", volume]], sleeps := [] }))
  ∧ (lvm_delete volume
        (ExecState.init (fun n => if n = 1 then .ok ("  owi-ao  ", "") else .ok ("", "")))
      = (.ok none,
         { oracle := fun n => if n = 1 then .ok ("  owi-ao  ", "") else .ok ("", ""),
           calls := 4,
           trace := [["lvdisplay", volume],
                     ["lvdisplay", "--noheading", "-C", "-o", "Attr", volume],
                     ["dmsetup", "remove", "-c", volume],
                     ["lvremove", "-f", volume]],
           sleeps := [] }))
  ∧ (lvm_delete volume
        (ExecState.init (fun n => if n = 1 then .ok ("-wi---", "") else .ok ("", "")))
      = (.ok none,
         { oracle := fun n => if n = 1 then .ok ("-wi---", "") else .ok ("", ""),
           calls := 3,
           trace := [["lvdisplay", volume],
                     ["lvdisplay", "--noheading", "-C", "-o", "Attr", volume],
                     ["lvremove", "-f", volume]],
           sleeps := [] }))
  ∧ (lvm_delete volume
        (ExecState.init (fun n =>
          if n = 2 then .error (.processExecutionError "first lvremove failure")
          else if n = 3 then .error (.processExecutionError "second lvremove failure")
          else if n = 4 then .error (.processExecutionError "third lvremove failure")
          else .ok ("-wi---", "")))
      = (.error (.processExecutionError "third lvremove failure"),
         { oracle := fun n =>
             if n = 2 then .error (.processExecutionError "first lvremove failure")
             else if n = 3 then .error (.processExecutionError "second lvremove failure")
             else if n = 4 then .error (.processExecutionError "third lvremove failure")
             else .ok ("-wi---", ""),
           calls := 5,
           trace := [["lvdisplay", volume],
                     ["lvdisplay", "--noheading", "-C", "-o", "Attr", volume],
                     ["lvremove", "-f", volume],
                     ["lvremove", "-f", volume],
                     ["lvremove", "-f", volume]],
           sleeps := [1, 4] })) := by
  exact ⟨rfl, rfl, rfl, rfl⟩
